import Mathlib

/-!
Shallow embedding of sync_google_sheet.py (AuraGem repository).

The script converts a spreadsheet CSV export into one JSON metadata file
per row.  The embedding models:

* a CSV data row as a mapping from the ten required column names to
  optional string values (a value of none means the column is absent
  from the header, in which case Python dict.get returns the default,
  the empty string);
* the per-row transformation of csv_to_json (lines 172-257) as a total
  function processRow returning an explicit outcome;
* the aggregate loop, its processed and skipped counters, and the
  success or failure return value of csv_to_json;
* the orchestrator sync_google_sheet together with the exit code of
  main;
* the file writes (json.dump with indent 4 and ensure_ascii False) as
  updates to a map from file names to file contents, so that the
  idempotence of a rerun is a statement about the resulting state.

Whitespace stripping is modelled over the character list of the string
(Python str.strip for the ASCII whitespace characters, which covers
every value appearing in the claims).  Integer parsing models Python
int() on an already-stripped string: an optional sign followed by a
nonempty ASCII digit sequence in which an underscore may occur only
between two digits.
-/

namespace AuraGem

/-- Model of Python str.strip: drop whitespace characters from both
ends.  Defined over the character list so that it reduces definitionally
(String.trim in Lean does not reduce in the kernel). -/
def pyStrip (s : String) : String :=
  ⟨((s.data.dropWhile Char.isWhitespace).reverse.dropWhile Char.isWhitespace).reverse⟩

/-- Model of row.get(col, default empty string) followed by .strip():
an absent column yields the empty string. -/
def getS (o : Option String) : String := pyStrip (o.getD "")

/-- Digit run of Python int(): already past the first digit, consume
ASCII digits, allowing an underscore only when a digit follows it. -/
def pyDigitsAux : List Char → Nat → Option Nat
  | [], acc => some acc
  | '_' :: c :: rest, acc =>
      if c.isDigit then pyDigitsAux rest (acc * 10 + (c.toNat - 48)) else none
  | ['_'], _ => none
  | c :: rest, acc =>
      if c.isDigit then pyDigitsAux rest (acc * 10 + (c.toNat - 48)) else none

/-- Unsigned part of Python int(): nonempty, must not start with an
underscore, digits with single underscores in between. -/
def pyNat : List Char → Option Nat
  | [] => none
  | '_' :: _ => none
  | cs => pyDigitsAux cs 0

/-- Model of Python int(s) for a string of ASCII characters: strips
surrounding whitespace, then an optional sign and a digit run.  Raises
ValueError in Python, here none. -/
def pythonInt (s : String) : Option Int :=
  match (pyStrip s).data with
  | '+' :: rest => (pyNat rest).map (fun n => (n : Int))
  | '-' :: rest => (pyNat rest).map (fun n => -(n : Int))
  | cs => (pyNat cs).map (fun n => (n : Int))

/-- generate_description (script lines 118-135): the cut value Brilliant
is displayed as RoundBrilliant, every other cut is used verbatim. -/
def generate_description (cut color : String) : String :=
  "A unique " ++ (if cut = "Brilliant" then "RoundBrilliant" else cut) ++
    " cut gemstone in " ++ color ++ " color."

/-- Value of one attribute entry: the script stores strings for Cut,
Color, Clarity and Rarity and an integer for Carat. -/
inductive AttrValue where
  | str (s : String)
  | int (i : Int)
deriving DecidableEq

/-- One entry of the attributes array: a trait_type and a value. -/
structure Attr where
  trait_type : String
  value : AttrValue
deriving DecidableEq

/-- The JSON document built for one valid row (script lines 211-238). -/
structure Doc where
  name : String
  description : String
  attributes : List Attr
  image : String
  animation_url : String
deriving DecidableEq

/-- One CSV data row restricted to the ten required columns.  A field
holds none when the column is absent from the CSV header; DictReader
then has no such key and row.get returns the default. -/
structure Row where
  id : Option String
  name : Option String
  category : Option String
  color : Option String
  cut : Option String
  carat : Option String
  clarity : Option String
  rarity : Option String
  image : Option String
  animationUrl : Option String
deriving DecidableEq

/-- Resolved color (script line 191): the stripped Category value when
it is nonempty, otherwise the stripped Color value. -/
def resolvedColor (row : Row) : String :=
  if getS row.category ≠ "" then getS row.category else getS row.color

/-- json_data construction (script lines 208-238): description from cut
and resolved color, five attributes in fixed order, Carat an integer. -/
def buildDoc (name cut color_name : String) (carat_value : Int)
    (clarity rarity image animation_url : String) : Doc :=
  { name := name
    description := generate_description cut color_name
    attributes :=
      [ ⟨"Cut", AttrValue.str cut⟩
      , ⟨"Color", AttrValue.str color_name⟩
      , ⟨"Carat", AttrValue.int carat_value⟩
      , ⟨"Clarity", AttrValue.str clarity⟩
      , ⟨"Rarity", AttrValue.str rarity⟩ ]
    image := image
    animation_url := animation_url }

/-- Outcome of processing one data row (script lines 172-257). -/
inductive RowResult where
  | blankId
  | skippedMissingFields (gem_id : String)
  | skippedBadCarat (gem_id : String) (raw : String)
  | produced (gem_id : String) (doc : Doc)
deriving DecidableEq

/-- Per-row algorithm of csv_to_json (script lines 172-257): rows with a
missing or blank ID are skipped silently; then the nine other columns
are extracted and stripped, the color is resolved, the eight required
values are checked nonempty, the carat string is converted with int(),
and on success the document is built. -/
def processRow (row : Row) : RowResult :=
  match row.id with
  | none => RowResult.blankId
  | some idRaw =>
    if pyStrip idRaw = "" then RowResult.blankId
    else if getS row.name = "" ∨ resolvedColor row = "" ∨ getS row.cut = "" ∨
        getS row.carat = "" ∨ getS row.clarity = "" ∨ getS row.rarity = "" ∨
        getS row.image = "" ∨ getS row.animationUrl = "" then
      RowResult.skippedMissingFields (pyStrip idRaw)
    else
      match pythonInt (getS row.carat) with
      | none => RowResult.skippedBadCarat (pyStrip idRaw) (getS row.carat)
      | some carat_value =>
          RowResult.produced (pyStrip idRaw)
            (buildDoc (getS row.name) (getS row.cut) (resolvedColor row) carat_value
              (getS row.clarity) (getS row.rarity) (getS row.image) (getS row.animationUrl))

/-- Warning line printed for a skipped row, mirroring the print calls at
script lines 195 and 203; silent skips and successes print nothing. -/
def skipMessage : RowResult → Option String
  | RowResult.blankId => none
  | RowResult.produced _ _ => none
  | RowResult.skippedMissingFields gid =>
      some ("⚠ Skipping row " ++ gid ++ ": Missing required fields")
  | RowResult.skippedBadCarat gid raw =>
      some ("⚠ Skipping row " ++ gid ++ ": Invalid carat value \x27" ++ raw ++ "\x27")

/-- Aggregate state of the conversion: the two counters reported at the
end and the list of (identifier, document) pairs written, in order. -/
structure TransformResult where
  processed : Nat
  skipped : Nat
  docs : List (String × Doc)
deriving DecidableEq

/-- Contribution of a single row to the counters and outputs: a blank-ID
skip counts nowhere, the two error skips increment skipped, a produced
document increments processed and is written. -/
def rowDelta (row : Row) : TransformResult :=
  match processRow row with
  | RowResult.blankId => ⟨0, 0, []⟩
  | RowResult.skippedMissingFields _ => ⟨0, 1, []⟩
  | RowResult.skippedBadCarat _ _ => ⟨0, 1, []⟩
  | RowResult.produced gid doc => ⟨1, 0, [(gid, doc)]⟩

/-- Sequential combination of two aggregate states. -/
def merge (a b : TransformResult) : TransformResult :=
  ⟨a.processed + b.processed, a.skipped + b.skipped, a.docs ++ b.docs⟩

/-- The row loop of csv_to_json: every row is processed, counters
accumulate, outputs are written in row order. -/
def processRows : List Row → TransformResult
  | [] => ⟨0, 0, []⟩
  | row :: rest => merge (rowDelta row) (processRows rest)

/-- csv_to_json (script lines 138-268) on the state of the CSV file:
none models a missing file (the exists check at line 155), some none a
file whose content cannot be read as a table (the except at line 266),
some (some rows) a readable table.  The function returns none exactly
when the Python function returns False. -/
def csv_to_json : Option (Option (List Row)) → Option TransformResult
  | none => none
  | some none => none
  | some (some rows) => some (processRows rows)

/-- Observable outcome of one orchestrator run: whether the Transformer
was invoked, the overall success flag, and the documents written. -/
structure SyncTrace where
  transformInvoked : Bool
  success : Bool
  docs : List (String × Doc)
deriving DecidableEq

/-- sync_google_sheet (script lines 271-321).  download_ok tells whether
download_csv would succeed; csvFile is the state of the CSV path before
the run (as for csv_to_json); remote is the table state after a
successful download rewrites the file. -/
def sync_google_sheet (skip_download download_ok : Bool)
    (csvFile : Option (Option (List Row))) (remote : Option (List Row)) : SyncTrace :=
  if skip_download then
    match csvFile with
    | none => ⟨false, false, []⟩
    | some content =>
      match csv_to_json (some content) with
      | none => ⟨true, false, []⟩
      | some r => ⟨true, true, r.docs⟩
  else
    if download_ok then
      match csv_to_json (some remote) with
      | none => ⟨true, false, []⟩
      | some r => ⟨true, true, r.docs⟩
    else ⟨false, false, []⟩

/-- Exit code of main (script line 378): 0 on success, 1 otherwise. -/
def mainExit (t : SyncTrace) : Nat := if t.success then 0 else 1

/-- Lowercase hexadecimal digit, used by the JSON escape of control
characters. -/
def hexDigit (n : Nat) : String :=
  if n < 10 then String.singleton (Char.ofNat (48 + n))
  else String.singleton (Char.ofNat (87 + n))

/-- Escape of one character as performed by json.dump with ensure_ascii
False: backslash, double quote and control characters are escaped,
everything else (including non-ASCII) is kept verbatim. -/
def jsonEscapeChar (c : Char) : String :=
  if c = '\\' then "\\\\"
  else if c = '"' then "\\\""
  else if c = '\n' then "\\n"
  else if c = '\t' then "\\t"
  else if c = '\r' then "\\r"
  else if c = '\x08' then "\\b"
  else if c = '\x0c' then "\\f"
  else if c.toNat < 32 then "\\u00" ++ hexDigit (c.toNat / 16) ++ hexDigit (c.toNat % 16)
  else String.singleton c

/-- JSON string literal with the escaping of json.dump, ensure_ascii
False. -/
def jsonStr (s : String) : String :=
  "\"" ++ String.join (s.data.map jsonEscapeChar) ++ "\""

/-- Serialization of an attribute value: quoted string or bare
integer. -/
def attrValueJson : AttrValue → String
  | AttrValue.str s => jsonStr s
  | AttrValue.int i => toString i

/-- Serialization of one attribute object at nesting depth two of the
indent-4 layout of json.dump. -/
def attrJson (a : Attr) : String :=
  "        \x7b\n            \"trait_type\": " ++ jsonStr a.trait_type ++
    ",\n            \"value\": " ++ attrValueJson a.value ++ "\n        \x7d"

/-- Byte content written by json.dump(json_data, f, indent 4,
ensure_ascii False) for one document (script line 243): keys in
insertion order, four-space indentation, no trailing newline. -/
def docJson (d : Doc) : String :=
  "\x7b\n    \"name\": " ++ jsonStr d.name ++
    ",\n    \"description\": " ++ jsonStr d.description ++
    ",\n    \"attributes\": " ++
    (if d.attributes.isEmpty then "[]"
     else "[\n" ++ String.intercalate ",\n" (d.attributes.map attrJson) ++ "\n    ]") ++
    ",\n    \"image\": " ++ jsonStr d.image ++
    ",\n    \"animation_url\": " ++ jsonStr d.animation_url ++ "\n\x7d"

/-- State of the output directory: file name to file contents. -/
def FileSys : Type := String → Option String

/-- Overwriting write of one file (open with mode w, script line 242). -/
def writeFile (fs : FileSys) (nm content : String) : FileSys :=
  fun k => if k = nm then some content else fs k

/-- Sequential application of a list of (name, content) writes. -/
def applyWrites (ws : List (String × String)) (fs : FileSys) : FileSys :=
  ws.foldl (fun acc w => writeFile acc w.1 w.2) fs

/-- Last value written for a given file name by a list of writes, if
any. -/
def lastVal : List (String × String) → String → Option String
  | [], _ => none
  | (n, c) :: ws, k =>
    match lastVal ws k with
    | some v => some v
    | none => if k = n then some c else none

/-- The writes performed by one run of csv_to_json on a readable table:
each produced document goes to the file named by its identifier plus
the .json suffix, serialized by docJson. -/
def transformWrites (rows : List Row) : List (String × String) :=
  (processRows rows).docs.map (fun d => (d.1 ++ ".json", docJson d.2))

/-- One run of the transform on a readable table, as a map on the output
directory state. -/
def runTransform (rows : List Row) (fs : FileSys) : FileSys :=
  applyWrites (transformWrites rows) fs

/-- Fully valid sample row: Category Ruby, hex code in Color, cut
Brilliant, carat 3. -/
def rowRuby : Row :=
  { id := some "1", name := some "Fire Gem", category := some "Ruby"
    color := some "#FF0000", cut := some "Brilliant", carat := some "3"
    clarity := some "VS1", rarity := some "Rare"
    image := some "ipfs://img", animationUrl := some "ipfs://anim" }

/-- Document produced for rowRuby. -/
def docRuby : Doc :=
  buildDoc "Fire Gem" "Brilliant" "Ruby" 3 "VS1" "Rare" "ipfs://img" "ipfs://anim"

/-- Sample row with a blank (present but empty) Category column. -/
def rowBlankCategory : Row := { rowRuby with category := some "" }

/-- Sample row whose Category column is absent from the header. -/
def rowMissingCategory : Row := { rowRuby with category := none }

/-- Helper: on a row with a valid identifier and all eight required
values nonempty, processRow reaches the carat conversion and its result
is decided by pythonInt alone. -/
theorem processRow_eq_of_valid (row : Row) (idRaw : String)
    (hid : row.id = some idRaw) (hgid : pyStrip idRaw ≠ "")
    (h1 : getS row.name ≠ "") (h2 : resolvedColor row ≠ "") (h3 : getS row.cut ≠ "")
    (h4 : getS row.carat ≠ "") (h5 : getS row.clarity ≠ "") (h6 : getS row.rarity ≠ "")
    (h7 : getS row.image ≠ "") (h8 : getS row.animationUrl ≠ "") :
    processRow row =
      match pythonInt (getS row.carat) with
      | none => RowResult.skippedBadCarat (pyStrip idRaw) (getS row.carat)
      | some v =>
          RowResult.produced (pyStrip idRaw)
            (buildDoc (getS row.name) (getS row.cut) (resolvedColor row) v
              (getS row.clarity) (getS row.rarity) (getS row.image) (getS row.animationUrl)) := by
  simp [processRow, hid, hgid, h1, h2, h3, h4, h5, h6, h7, h8]

/-- Helper: inversion of processRow on a produced document, recovering
every validation fact the success branch passed through. -/
theorem processRow_produced_inv (row : Row) (gid : String) (doc : Doc)
    (h : processRow row = RowResult.produced gid doc) :
    ∃ idRaw v, row.id = some idRaw ∧ pyStrip idRaw ≠ "" ∧ gid = pyStrip idRaw ∧
      getS row.name ≠ "" ∧ resolvedColor row ≠ "" ∧ getS row.cut ≠ "" ∧ getS row.carat ≠ "" ∧
      getS row.clarity ≠ "" ∧ getS row.rarity ≠ "" ∧ getS row.image ≠ "" ∧
      getS row.animationUrl ≠ "" ∧
      pythonInt (getS row.carat) = some v ∧
      doc = buildDoc (getS row.name) (getS row.cut) (resolvedColor row) v
        (getS row.clarity) (getS row.rarity) (getS row.image) (getS row.animationUrl) := by
  rcases hid : row.id with _ | idRaw <;> simp only [processRow, hid] at h
  · exact absurd h (by simp)
  · by_cases hb : pyStrip idRaw = ""
    · rw [if_pos hb] at h; exact absurd h (by simp)
    · rw [if_neg hb] at h
      by_cases hm : getS row.name = "" ∨ resolvedColor row = "" ∨ getS row.cut = "" ∨
          getS row.carat = "" ∨ getS row.clarity = "" ∨ getS row.rarity = "" ∨
          getS row.image = "" ∨ getS row.animationUrl = ""
      · rw [if_pos hm] at h; exact absurd h (by simp)
      · rw [if_neg hm] at h
        push_neg at hm
        obtain ⟨h1, h2, h3, h4, h5, h6, h7, h8⟩ := hm
        rcases hci : pythonInt (getS row.carat) with _ | v <;> rw [hci] at h
        · exact absurd h (by simp)
        · injection h with hg hd
          exact ⟨idRaw, v, rfl, hb, hg.symm, h1, h2, h3, h4, h5, h6, h7, h8, rfl, hd.symm⟩

/-- Helper: the synthesized description always begins with a nonempty
literal, so it is never the empty string. -/
theorem generate_description_ne_empty (cut color : String) :
    generate_description cut color ≠ "" := by
  intro h
  have hl := congrArg String.length h
  simp only [generate_description, String.length_append] at hl
  have h9 : ("A unique " : String).length = 9 := rfl
  have h0 : ("" : String).length = 0 := rfl
  omega

/-- Helper: reading one file after a list of writes returns the last
value written to it, or the prior content when it was never written. -/
theorem applyWrites_apply (ws : List (String × String)) (fs : FileSys) (k : String) :
    applyWrites ws fs k =
      match lastVal ws k with
      | some v => some v
      | none => fs k := by
  induction ws generalizing fs with
  | nil => rfl
  | cons w ws ih =>
    obtain ⟨n, c⟩ := w
    show applyWrites ws (writeFile fs n c) k = _
    rw [ih]
    cases hlv : lastVal ws k with
    | some v => simp [lastVal, hlv]
    | none =>
      simp only [lastVal, hlv, writeFile]
      by_cases hk : k = n <;> simp [hk]

/-- Helper: replaying the same list of overwriting writes leaves the
file system unchanged. -/
theorem applyWrites_idem (ws : List (String × String)) (fs : FileSys) :
    applyWrites ws (applyWrites ws fs) = applyWrites ws fs := by
  funext k
  simp only [applyWrites_apply]
  cases hlv : lastVal ws k <;> simp [hlv]

/-- C1 counterexample: a data row whose Category column is missing
entirely is not skipped — Category feeds only the color fallback, so
with a nonblank Color code the document is still produced, the skipped
counter is untouched and no error is reported.  This refutes the claim
that a row missing any of the 9 non-identifier required columns is
skipped with the missing column named. -/
theorem c1_missing_category_column_still_produces :
    rowMissingCategory.category = none ∧
    processRow rowMissingCategory =
      RowResult.produced "1"
        (buildDoc "Fire Gem" "Brilliant" "#FF0000" 3 "VS1" "Rare" "ipfs://img" "ipfs://anim") ∧
    rowDelta rowMissingCategory =
      ⟨1, 0, [("1", buildDoc "Fire Gem" "Brilliant" "#FF0000" 3 "VS1" "Rare" "ipfs://img" "ipfs://anim")]⟩ ∧
    skipMessage (processRow rowMissingCategory) = none :=
  ⟨rfl, by decide, by decide, by decide⟩

/-- C1 amended: for a data row with a valid identifier, a missing
column among the seven that feed a required value directly (display
name, Cut, Carat, Clarity, Rarity, image, animation_url), or missing
both Category and Color, makes the row skipped and counted as an
error; the report carries the row identifier and a generic missing
required fields reason, not the name of the missing column (row.get
with a default never raises the KeyError the missing-column handler
waits for). -/
theorem c1_missing_column_generic_error (row : Row) (idRaw : String)
    (hid : row.id = some idRaw) (hgid : pyStrip idRaw ≠ "")
    (hmiss : row.name = none ∨ row.cut = none ∨ row.carat = none ∨ row.clarity = none ∨
      row.rarity = none ∨ row.image = none ∨ row.animationUrl = none ∨
      (row.category = none ∧ row.color = none)) :
    processRow row = RowResult.skippedMissingFields (pyStrip idRaw) ∧
    rowDelta row = ⟨0, 1, []⟩ ∧
    skipMessage (processRow row) =
      some ("⚠ Skipping row " ++ pyStrip idRaw ++ ": Missing required fields") := by
  have hcond : getS row.name = "" ∨ resolvedColor row = "" ∨ getS row.cut = "" ∨
      getS row.carat = "" ∨ getS row.clarity = "" ∨ getS row.rarity = "" ∨
      getS row.image = "" ∨ getS row.animationUrl = "" := by
    rcases hmiss with h | h | h | h | h | h | h | ⟨hc, hco⟩
    · exact Or.inl (by rw [getS, h]; rfl)
    · exact Or.inr (Or.inr (Or.inl (by rw [getS, h]; rfl)))
    · exact Or.inr (Or.inr (Or.inr (Or.inl (by rw [getS, h]; rfl))))
    · exact Or.inr (Or.inr (Or.inr (Or.inr (Or.inl (by rw [getS, h]; rfl)))))
    · exact Or.inr (Or.inr (Or.inr (Or.inr (Or.inr (Or.inl (by rw [getS, h]; rfl))))))
    · exact Or.inr (Or.inr (Or.inr (Or.inr (Or.inr (Or.inr (Or.inl (by rw [getS, h]; rfl)))))))
    · exact Or.inr (Or.inr (Or.inr (Or.inr (Or.inr (Or.inr (Or.inr (by rw [getS, h]; rfl)))))))
    · exact Or.inr (Or.inl (by rw [resolvedColor, getS, getS, hc, hco]; rfl))
  have hp : processRow row = RowResult.skippedMissingFields (pyStrip idRaw) := by
    simp [processRow, hid, hgid, hcond]
  exact ⟨hp, by simp [rowDelta, hp], by simp [skipMessage, hp]⟩

/-- Witness for the amended C1 theorem at a concrete row with the
display-name column absent. -/
theorem c1_missing_column_generic_error_witness :
    processRow { rowRuby with name := none } = RowResult.skippedMissingFields (pyStrip "1") ∧
    rowDelta { rowRuby with name := none } = ⟨0, 1, []⟩ ∧
    skipMessage (processRow { rowRuby with name := none }) =
      some ("⚠ Skipping row " ++ pyStrip "1" ++ ": Missing required fields") :=
  c1_missing_column_generic_error { rowRuby with name := none } "1" rfl (by decide) (Or.inl rfl)

/-- C2: on a row that passes the completeness validation, the carat
string "3" parses to the integer 3 and yields a produced document with
that Carat value, while a carat string rejected by Python int (such as
"3.5" or "three") makes the row skipped, counted as an error, reported
with the row identifier and the offending raw value, and produces no
document. -/
theorem c2_carat_coercion (row : Row) (idRaw : String)
    (hid : row.id = some idRaw) (hgid : pyStrip idRaw ≠ "")
    (h1 : getS row.name ≠ "") (h2 : resolvedColor row ≠ "") (h3 : getS row.cut ≠ "")
    (h4 : getS row.carat ≠ "") (h5 : getS row.clarity ≠ "") (h6 : getS row.rarity ≠ "")
    (h7 : getS row.image ≠ "") (h8 : getS row.animationUrl ≠ "") :
    (pythonInt "3" = some 3 ∧ pythonInt "3.5" = none ∧ pythonInt "three" = none) ∧
    (∀ v, pythonInt (getS row.carat) = some v →
      processRow row =
        RowResult.produced (pyStrip idRaw)
          (buildDoc (getS row.name) (getS row.cut) (resolvedColor row) v
            (getS row.clarity) (getS row.rarity) (getS row.image) (getS row.animationUrl)) ∧
      rowDelta row =
        ⟨1, 0, [(pyStrip idRaw,
          buildDoc (getS row.name) (getS row.cut) (resolvedColor row) v
            (getS row.clarity) (getS row.rarity) (getS row.image) (getS row.animationUrl))]⟩ ∧
      skipMessage (processRow row) = none) ∧
    (pythonInt (getS row.carat) = none →
      processRow row = RowResult.skippedBadCarat (pyStrip idRaw) (getS row.carat) ∧
      rowDelta row = ⟨0, 1, []⟩ ∧
      skipMessage (processRow row) =
        some ("⚠ Skipping row " ++ pyStrip idRaw ++ ": Invalid carat value \x27" ++
          getS row.carat ++ "\x27")) := by
  have key := processRow_eq_of_valid row idRaw hid hgid h1 h2 h3 h4 h5 h6 h7 h8
  refine ⟨⟨by decide, by decide, by decide⟩, ?_, ?_⟩
  · intro v hv
    simp only [hv] at key
    exact ⟨key, by simp [rowDelta, key], by simp [skipMessage, key]⟩
  · intro hv
    simp only [hv] at key
    exact ⟨key, by simp [rowDelta, key], by simp [skipMessage, key]⟩

/-- Witness for C2 at the fully valid sample row with carat "3". -/
theorem c2_carat_coercion_witness :
    processRow rowRuby =
      RowResult.produced (pyStrip "1")
        (buildDoc (getS rowRuby.name) (getS rowRuby.cut) (resolvedColor rowRuby) 3
          (getS rowRuby.clarity) (getS rowRuby.rarity) (getS rowRuby.image)
          (getS rowRuby.animationUrl)) :=
  ((c2_carat_coercion rowRuby "1" rfl (by decide) (by decide) (by decide) (by decide)
      (by decide) (by decide) (by decide) (by decide) (by decide)).2.1 3 (by decide)).1

/-- C3: the Color trait of every produced document is the resolved
color; the resolved color is the trimmed Category value when nonblank
and otherwise the trimmed Color code; Category Ruby with code #FF0000
resolves to Ruby, blank Category with code #FF0000 resolves to
#FF0000. -/
theorem c3_color_resolution :
    (∀ row gid doc, processRow row = RowResult.produced gid doc →
      doc.attributes.get? 1 = some ⟨"Color", AttrValue.str (resolvedColor row)⟩) ∧
    (∀ row, getS row.category ≠ "" → resolvedColor row = getS row.category) ∧
    (∀ row, getS row.category = "" → resolvedColor row = getS row.color) ∧
    resolvedColor rowRuby = "Ruby" ∧
    resolvedColor rowBlankCategory = "#FF0000" ∧
    processRow rowRuby = RowResult.produced "1" docRuby ∧
    docRuby.attributes.get? 1 = some ⟨"Color", AttrValue.str "Ruby"⟩ ∧
    processRow rowBlankCategory =
      RowResult.produced "1"
        (buildDoc "Fire Gem" "Brilliant" "#FF0000" 3 "VS1" "Rare" "ipfs://img" "ipfs://anim") := by
  refine ⟨?_, ?_, ?_, by decide, by decide, by decide, by decide, by decide⟩
  · intro row gid doc h
    obtain ⟨idRaw, v, _, _, _, _, _, _, _, _, _, _, _, _, hdoc⟩ :=
      processRow_produced_inv row gid doc h
    subst hdoc
    rfl
  · intro row hc
    rw [resolvedColor, if_pos hc]
  · intro row hc
    rw [resolvedColor, if_neg (by simp [hc])]

/-- Witness for C3 at the fully valid sample row. -/
theorem c3_color_resolution_witness :
    docRuby.attributes.get? 1 = some ⟨"Color", AttrValue.str (resolvedColor rowRuby)⟩ :=
  c3_color_resolution.1 rowRuby "1" docRuby (by decide)

/-- C4: the description is exactly the sentence built from the
displayed cut and the resolved color, where the cut Brilliant is
displayed as RoundBrilliant and every other cut verbatim, while the Cut
attribute keeps the unaliased cut value. -/
theorem c4_description_synthesis :
    (∀ cut color, cut ≠ "Brilliant" →
      generate_description cut color =
        "A unique " ++ cut ++ " cut gemstone in " ++ color ++ " color.") ∧
    (∀ color, generate_description "Brilliant" color =
      "A unique RoundBrilliant cut gemstone in " ++ color ++ " color.") ∧
    generate_description "Brilliant" "Ruby" =
      "A unique RoundBrilliant cut gemstone in Ruby color." ∧
    generate_description "Princess" "Emerald" =
      "A unique Princess cut gemstone in Emerald color." ∧
    (∀ row gid doc, processRow row = RowResult.produced gid doc →
      doc.description = generate_description (getS row.cut) (resolvedColor row) ∧
      doc.attributes.get? 0 = some ⟨"Cut", AttrValue.str (getS row.cut)⟩) ∧
    processRow rowRuby = RowResult.produced "1" docRuby ∧
    docRuby.description = "A unique RoundBrilliant cut gemstone in Ruby color." ∧
    docRuby.attributes.get? 0 = some ⟨"Cut", AttrValue.str "Brilliant"⟩ := by
  refine ⟨?_, ?_, by decide, by decide, ?_, by decide, by decide, by decide⟩
  · intro cut color hc
    rw [generate_description, if_neg hc]
  · intro color
    rfl
  · intro row gid doc h
    obtain ⟨idRaw, v, _, _, _, _, _, _, _, _, _, _, _, _, hdoc⟩ :=
      processRow_produced_inv row gid doc h
    subst hdoc
    exact ⟨rfl, rfl⟩

/-- Witness for C4 at the fully valid sample row with cut Brilliant. -/
theorem c4_description_synthesis_witness :
    docRuby.description = generate_description (getS rowRuby.cut) (resolvedColor rowRuby) ∧
    docRuby.attributes.get? 0 = some ⟨"Cut", AttrValue.str (getS rowRuby.cut)⟩ :=
  c4_description_synthesis.2.2.2.2.1 rowRuby "1" docRuby (by decide)

/-- C5: every produced document has exactly the five attributes Cut,
Color, Carat, Clarity, Rarity in that order, Carat holding the parsed
integer, every string field equal to the corresponding stripped row
value and nonempty, and production implies all eight extracted values
were nonblank. -/
theorem c5_document_shape (row : Row) (gid : String) (doc : Doc)
    (h : processRow row = RowResult.produced gid doc) :
    doc.attributes.map Attr.trait_type = ["Cut", "Color", "Carat", "Clarity", "Rarity"] ∧
    (∃ v, pythonInt (getS row.carat) = some v ∧
      doc.attributes.get? 2 = some ⟨"Carat", AttrValue.int v⟩) ∧
    doc.name = getS row.name ∧ doc.name ≠ "" ∧
    doc.description ≠ "" ∧
    doc.image = getS row.image ∧ doc.image ≠ "" ∧
    doc.animation_url = getS row.animationUrl ∧ doc.animation_url ≠ "" ∧
    doc.attributes.get? 0 = some ⟨"Cut", AttrValue.str (getS row.cut)⟩ ∧ getS row.cut ≠ "" ∧
    doc.attributes.get? 1 = some ⟨"Color", AttrValue.str (resolvedColor row)⟩ ∧
      resolvedColor row ≠ "" ∧
    doc.attributes.get? 3 = some ⟨"Clarity", AttrValue.str (getS row.clarity)⟩ ∧
      getS row.clarity ≠ "" ∧
    doc.attributes.get? 4 = some ⟨"Rarity", AttrValue.str (getS row.rarity)⟩ ∧
      getS row.rarity ≠ "" ∧
    getS row.carat ≠ "" := by
  obtain ⟨idRaw, v, hid, hb, hg, h1, h2, h3, h4, h5, h6, h7, h8, hci, hdoc⟩ :=
    processRow_produced_inv row gid doc h
  subst hdoc
  refine ⟨rfl, ⟨v, hci, rfl⟩, rfl, h1, ?_, rfl, h7, rfl, h8, rfl, h3, rfl, h2, rfl, h5,
    rfl, h6, h4⟩
  exact generate_description_ne_empty (getS row.cut) (resolvedColor row)

/-- Witness for C5 at the fully valid sample row. -/
theorem c5_document_shape_witness :
    docRuby.attributes.map Attr.trait_type = ["Cut", "Color", "Carat", "Clarity", "Rarity"] :=
  (c5_document_shape rowRuby "1" docRuby (by decide)).1

/-- C6: a row whose identifier column is missing, or whose identifier
is blank after stripping, is skipped silently: no document, no change
to either counter, no message. -/
theorem c6_blank_identifier_silent_skip (row : Row)
    (h : row.id = none ∨ ∃ s, row.id = some s ∧ pyStrip s = "") :
    processRow row = RowResult.blankId ∧ rowDelta row = ⟨0, 0, []⟩ ∧
    skipMessage (processRow row) = none := by
  have hp : processRow row = RowResult.blankId := by
    rcases h with h | ⟨s, hs, hb⟩
    · simp [processRow, h]
    · simp [processRow, hs, hb]
  exact ⟨hp, by simp [rowDelta, hp], by simp [skipMessage, hp]⟩

/-- Witness for C6 at a row whose identifier is whitespace only. -/
theorem c6_blank_identifier_silent_skip_witness :
    processRow { rowRuby with id := some "  " } = RowResult.blankId ∧
    rowDelta { rowRuby with id := some "  " } = ⟨0, 0, []⟩ ∧
    skipMessage (processRow { rowRuby with id := some "  " }) = none :=
  c6_blank_identifier_silent_skip { rowRuby with id := some "  " }
    (Or.inr ⟨"  ", rfl, by decide⟩)

/-- C7: csv_to_json fails exactly when the CSV file is missing or its
content is unreadable; every readable table is processed to a result
carrying the processed and skipped counts; and the rows are processed
independently, so any split of the row list processes as the merge of
the two halves. -/
theorem c7_transform_totality :
    (∀ csvFile, csv_to_json csvFile = none ↔ csvFile = none ∨ csvFile = some none) ∧
    (∀ rows, csv_to_json (some (some rows)) = some (processRows rows)) ∧
    (∀ xs ys, processRows (xs ++ ys) = merge (processRows xs) (processRows ys)) := by
  refine ⟨?_, fun rows => rfl, ?_⟩
  · intro csvFile
    rcases csvFile with _ | (_ | rows) <;> simp [csv_to_json]
  · intro xs ys
    induction xs with
    | nil => simp [processRows, merge]
    | cons x xs ih =>
      simp [processRows, ih, merge, Nat.add_assoc, List.append_assoc]

/-- C8: with the download bypassed and no CSV file at the configured
path the run fails with exit code 1, the Transformer is never invoked
and no documents are written; and with the download not bypassed and
the fetch failing, the run aborts the same way before any
transformation. -/
theorem c8_orchestrator_aborts :
    (∀ download_ok remote,
      sync_google_sheet true download_ok none remote = ⟨false, false, []⟩ ∧
      mainExit (sync_google_sheet true download_ok none remote) = 1) ∧
    (∀ csvFile remote,
      sync_google_sheet false false csvFile remote = ⟨false, false, []⟩ ∧
      mainExit (sync_google_sheet false false csvFile remote) = 1) :=
  ⟨fun _ _ => ⟨rfl, rfl⟩, fun _ _ => ⟨rfl, rfl⟩⟩

/-- C9: rerunning the transform on an unchanged table with the same
output directory is idempotent — the second run rewrites every output
file with byte-identical content, leaving the directory state equal. -/
theorem c9_transform_idempotent (rows : List Row) (fs : FileSys) :
    runTransform rows (runTransform rows fs) = runTransform rows fs :=
  applyWrites_idem (transformWrites rows) fs

/-- C10: carat parsing via Python int is more lenient than plain digit
strings — a leading sign or an underscore separator is accepted, so
rows with carat +3, -3 or 1_0 produce documents with Carat 3, -3 and 10
respectively (negative values included). -/
theorem c10_python_int_leniency :
    pythonInt "+3" = some 3 ∧ pythonInt "-3" = some (-3) ∧ pythonInt "1_0" = some 10 ∧
    processRow { rowRuby with id := some "p1", carat := some "+3" } =
      RowResult.produced "p1"
        (buildDoc "Fire Gem" "Brilliant" "Ruby" 3 "VS1" "Rare" "ipfs://img" "ipfs://anim") ∧
    processRow { rowRuby with id := some "p2", carat := some "-3" } =
      RowResult.produced "p2"
        (buildDoc "Fire Gem" "Brilliant" "Ruby" (-3) "VS1" "Rare" "ipfs://img" "ipfs://anim") ∧
    processRow { rowRuby with id := some "p3", carat := some "1_0" } =
      RowResult.produced "p3"
        (buildDoc "Fire Gem" "Brilliant" "Ruby" 10 "VS1" "Rare" "ipfs://img" "ipfs://anim") :=
  ⟨by decide, by decide, by decide, by decide, by decide, by decide⟩

end AuraGem
